import Mathlib

/-
Shallow embedding of the two source files of this repository:

  * threeML/models/spatialModels/gaussian.py — the circular (`Gaussian`) and
    elliptical (`MultiVariateGaussian`) spatial density models;
  * threeML/plugins/HAWCLike.py — the constructor of the `HAWCLike` plugin.

Python floats are embedded as real numbers.  Stateful methods are embedded as
explicit state passing: `setup` produces the initial state record and
`__call__` returns the density value paired with the updated state.  The two
external collaborators invoked by the models — the angular-separation function
`angsep` and `scipy.stats.multivariate_normal.pdf` — and the class
`SpatialParameter` (imported by the source from `threeML.models.Parameter`,
which is not among the sources) are modelled from the spec, as marked in their
doc comments.
-/

open Real

noncomputable section

namespace ThreeML

/-- Embedding of `threeML.models.Parameter.Parameter` as constructed in the
source: a named scalar with a current value, inclusive bounds `[minVal, maxVal]`,
a step size, a fixed flag, a nuisance flag and an optional dataset tag. -/
structure Parameter where
  pname : String
  value : ℝ
  minVal : ℝ
  maxVal : ℝ
  stepSize : ℝ
  isFixed : Bool
  isNuisance : Bool
  dataset : Option String

/-- Modelled from the spec: `SpatialParameter` (imported by the source from
`threeML.models.Parameter`, a module not among the sources): a Parameter whose
value may additionally depend on a supplied energy; it is invoked with an
energy argument (`param(energy).value` in the source) to yield the effective
value at evaluation time.  `valueAt energy` is that effective value. -/
structure SpatialParameter where
  base : Parameter
  valueAt : ℝ → ℝ

/-- The `Parameter(name, value, min, max, step, fixed, nuisance, dataset)`
constructor calls appearing in `setup` (all pass `dataset=None`). -/
def Parameter.make (nm : String) (v mn mx st : ℝ) (fx nu : Bool) : Parameter :=
  ⟨nm, v, mn, mx, st, fx, nu, none⟩

/-- The `SpatialParameter(...)` constructor calls appearing in `setup`: the
initial energy resolution of a freshly constructed spatial parameter is the
constant initial value (the external fitting engine may later replace it). -/
def SpatialParameter.make (nm : String) (v mn mx st : ℝ) (fx nu : Bool) : SpatialParameter :=
  ⟨Parameter.make nm v mn mx st fx nu, fun _ => v⟩

/-! ## The circular Gaussian model (`class Gaussian`) -/

/-- State of a `Gaussian` model instance: the fields assigned by
`Gaussian.setup`.  The ordered parameter dictionary has the fixed key order
`RA0, Dec0, sigma`, represented by the three parameter fields in that order. -/
structure Gaussian where
  functionName : String
  formula : String
  pRA0 : Parameter
  pDec0 : Parameter
  pSigma : SpatialParameter
  ncalls : ℕ

/-- `Gaussian.setup` (the LaTeX formula string of the source is kept as a
plain-text transliteration). -/
def Gaussian.setup : Gaussian where
  functionName := "Gaussian"
  formula := "f(RA, Dec) = (180/pi)^2 * 1/(2 pi sigma^2) * exp(-angsep^2(RA, Dec, RA0, Dec0)/(2 sigma^2))"
  pRA0 := Parameter.make "RA0" 1 0 360 0.1 false false
  pDec0 := Parameter.make "Dec0" 1 (-90) 90 0.1 false false
  pSigma := SpatialParameter.make "sigma" 0.1 0 20 0.01 false false
  ncalls := 0

/-- The enumerable ordered parameter mapping of a `Gaussian` state:
key and current scalar value, in dictionary insertion order. -/
def Gaussian.parameters (s : Gaussian) : List (String × ℝ) :=
  [("RA0", s.pRA0.value), ("Dec0", s.pDec0.value), ("sigma", s.pSigma.base.value)]

/-- The density expression of `Gaussian.__call__` (the argument of the
`numpy.maximum(·, 1e-30)` clamp on line 29 of gaussian.py).  The
angular-separation function `angsep` is an external collaborator and is passed
as the argument `f`. -/
def Gaussian.density (f : ℝ → ℝ → ℝ → ℝ → ℝ) (s : Gaussian) (RA Dec energy : ℝ) : ℝ :=
  let ra0 := s.pRA0.value
  let dec0 := s.pDec0.value
  let sigma := s.pSigma.valueAt energy
  (180 / π) ^ 2 * 1 / (2 * π * sigma ^ 2) *
    Real.exp (-0.5 * (f RA Dec ra0 dec0) ^ 2 / sigma ^ 2)

/-- `Gaussian.__call__(RA, Dec, energy)`: increments `ncalls` and returns the
clamped density. -/
def Gaussian.call (f : ℝ → ℝ → ℝ → ℝ → ℝ) (s : Gaussian) (RA Dec energy : ℝ) :
    ℝ × Gaussian :=
  (max (Gaussian.density f s RA Dec energy) 1e-30, { s with ncalls := s.ncalls + 1 })

/-! ## The elliptical Gaussian model (`class MultiVariateGaussian`) -/

/-- 2×2 real matrices, for the `np.array([[...],[...]])` values built in
`MultiVariateGaussian.__call__`; entry `a` is row 0 column 0, `b` row 0
column 1, `c` row 1 column 0, `d` row 1 column 1. -/
structure Mat2 where
  a : ℝ
  b : ℝ
  c : ℝ
  d : ℝ

/-- Matrix product (`np.dot`). -/
def Mat2.mul (M N : Mat2) : Mat2 :=
  ⟨M.a * N.a + M.b * N.c, M.a * N.b + M.b * N.d,
   M.c * N.a + M.d * N.c, M.c * N.b + M.d * N.d⟩

/-- Matrix transpose (`.T`). -/
def Mat2.transpose (M : Mat2) : Mat2 := ⟨M.a, M.c, M.b, M.d⟩

/-- Determinant of a 2×2 matrix. -/
def Mat2.det (M : Mat2) : ℝ := M.a * M.d - M.b * M.c

/-- Inverse of a 2×2 matrix (division by a zero determinant yields the Lean
convention `x / 0 = 0`; all uses below have nonzero determinant). -/
def Mat2.inv (M : Mat2) : Mat2 :=
  ⟨M.d / M.det, -M.b / M.det, -M.c / M.det, M.a / M.det⟩

/-- Modelled from the spec: the external bivariate-normal density function
(`scipy.stats.multivariate_normal.pdf`, "(point, mean, covariance) → density"):
the standard bivariate normal density
`1/(2π·√(det Σ)) · exp(−(x−μ)ᵀ Σ⁻¹ (x−μ) / 2)`. -/
def mvnPdf (x y mx my : ℝ) (S : Mat2) : ℝ :=
  let u := x - mx
  let v := y - my
  let Si := S.inv
  1 / (2 * π * Real.sqrt S.det) *
    Real.exp (-(1 / 2) * (u * (Si.a * u + Si.b * v) + v * (Si.c * u + Si.d * v)))

/-- State of a `MultiVariateGaussian` model instance; the ordered parameter
dictionary has the fixed key order `RA0, Dec0, sigma, eccentricity, angle`. -/
structure MultiVariateGaussian where
  functionName : String
  formula : String
  pRA0 : Parameter
  pDec0 : Parameter
  pSigma : SpatialParameter
  pEccentricity : SpatialParameter
  pAngle : SpatialParameter
  ncalls : ℕ

/-- `MultiVariateGaussian.setup` (LaTeX formula transliterated). -/
def MultiVariateGaussian.setup : MultiVariateGaussian where
  functionName := "Multivariate Gaussian"
  formula := "f(x) = (180/pi)^2 * 1/(2 pi sqrt(det Sigma)) * exp(-(x-x0)^T Sigma^-1 (x-x0)/2), Sigma = U Lambda U^T"
  pRA0 := Parameter.make "RA0" 1 0 360 0.1 false false
  pDec0 := Parameter.make "Dec0" 1 (-90) 90 0.1 false false
  pSigma := SpatialParameter.make "sigma" 0.1 0 10 0.01 false false
  pEccentricity := SpatialParameter.make "eccentricity" 0.7 0 1 0.01 false false
  pAngle := SpatialParameter.make "angle" 0 0 180 1 false false
  ncalls := 0

/-- The enumerable ordered parameter mapping of a `MultiVariateGaussian`
state. -/
def MultiVariateGaussian.parameters (s : MultiVariateGaussian) : List (String × ℝ) :=
  [("RA0", s.pRA0.value), ("Dec0", s.pDec0.value), ("sigma", s.pSigma.base.value),
   ("eccentricity", s.pEccentricity.base.value), ("angle", s.pAngle.base.value)]

/-- The density expression of `MultiVariateGaussian.__call__` (the argument of
the `numpy.maximum(·, 1e-30)` clamp on line 62 of gaussian.py): the resolved
angle is converted to radians by `np.deg2rad`, the covariance is
`rot · diag(sigma_1, sigma_2) · rotᵀ` and the bivariate normal pdf is scaled
by `(180/π)²`. -/
def MultiVariateGaussian.density (s : MultiVariateGaussian) (RA Dec energy : ℝ) : ℝ :=
  let ra0 := s.pRA0.value
  let dec0 := s.pDec0.value
  let sigma := s.pSigma.valueAt energy
  let eccentricity := s.pEccentricity.valueAt energy
  let angle := s.pAngle.valueAt energy * (π / 180)
  let sigma1 := sigma ^ 2
  let sigma2 := sigma1 * (1 - eccentricity ^ 2)
  let rot : Mat2 := ⟨Real.cos angle, -Real.sin angle, Real.sin angle, Real.cos angle⟩
  let cov := rot.mul ((Mat2.mk sigma1 0 0 sigma2).mul rot.transpose)
  (180 / π) ^ 2 * mvnPdf RA Dec ra0 dec0 cov

/-- `MultiVariateGaussian.__call__(RA, Dec, energy)`. -/
def MultiVariateGaussian.call (s : MultiVariateGaussian) (RA Dec energy : ℝ) :
    ℝ × MultiVariateGaussian :=
  (max (MultiVariateGaussian.density s RA Dec energy) 1e-30,
   { s with ncalls := s.ncalls + 1 })

/-! ## Spec-side definitions and concrete collaborator models -/

/-- Degrees to radians (`np.deg2rad`). -/
def deg2rad (x : ℝ) : ℝ := x * (π / 180)

/-- Modelled from the spec: the external angular-separation function `angsep`
(not among the sources), per the spec glossary the great-circle distance
between two sky positions, inputs and output in degrees. -/
def angsepGC (ra1 dec1 ra2 dec2 : ℝ) : ℝ :=
  (180 / π) * Real.arccos (Real.sin (deg2rad dec1) * Real.sin (deg2rad dec2) +
    Real.cos (deg2rad dec1) * Real.cos (deg2rad dec2) *
      Real.cos (deg2rad ra1 - deg2rad ra2))

/-- The circular density formula exactly as the spec states it:
`(180/π)² · 1/(2π·sigma²) · exp(−d²/(2·sigma²))`. -/
def specCircularDensity (sigma d : ℝ) : ℝ :=
  (180 / π) ^ 2 * (1 / (2 * π * sigma ^ 2)) * Real.exp (-(d ^ 2) / (2 * sigma ^ 2))

/-- A `Gaussian` state as left by `setup` after the external fitting engine
has set the position values and the energy resolution of `sigma`; used to
instantiate theorems at concrete parameter settings. -/
def Gaussian.withValues (ra0 dec0 : ℝ) (σf : ℝ → ℝ) : Gaussian :=
  { Gaussian.setup with
      pRA0 := { Gaussian.setup.pRA0 with value := ra0 }
      pDec0 := { Gaussian.setup.pDec0 with value := dec0 }
      pSigma := { Gaussian.setup.pSigma with valueAt := σf } }

/-- A `MultiVariateGaussian` state as left by `setup` after the external
fitting engine has set the position values and the energy resolutions. -/
def MultiVariateGaussian.withValues (ra0 dec0 : ℝ) (σf εf af : ℝ → ℝ) :
    MultiVariateGaussian :=
  { MultiVariateGaussian.setup with
      pRA0 := { MultiVariateGaussian.setup.pRA0 with value := ra0 }
      pDec0 := { MultiVariateGaussian.setup.pDec0 with value := dec0 }
      pSigma := { MultiVariateGaussian.setup.pSigma with valueAt := σf }
      pEccentricity := { MultiVariateGaussian.setup.pEccentricity with valueAt := εf }
      pAngle := { MultiVariateGaussian.setup.pAngle with valueAt := af } }

/-- Folding `Gaussian.__call__` over a list of `(RA, Dec, energy)` inputs,
keeping only the state: `n` successive evaluations since a given state. -/
def Gaussian.runCalls (f : ℝ → ℝ → ℝ → ℝ → ℝ) (s : Gaussian)
    (xs : List (ℝ × ℝ × ℝ)) : Gaussian :=
  xs.foldl (fun st t => (Gaussian.call f st t.1 t.2.1 t.2.2).2) s

/-- Folding `MultiVariateGaussian.__call__` over a list of inputs. -/
def MultiVariateGaussian.runCalls (s : MultiVariateGaussian)
    (xs : List (ℝ × ℝ × ℝ)) : MultiVariateGaussian :=
  xs.foldl (fun st t => (MultiVariateGaussian.call st t.1 t.2.1 t.2.2).2) s

/-! ## The HAWCLike plugin constructor (`HAWCLike.__init__`) -/

/-- Python exceptions raised by the embedded HAWCLike code. -/
inductive PyErr where
  | ioError (msg : String)
deriving DecidableEq

/-- The external filesystem helpers used by `HAWCLike.__init__` (from
`threeML.io.file_utils`, not among the sources, and `os.path`):
`sanitized` is `os.path.abspath ∘ sanitize_filename` and `readable` is
`file_existing_and_readable`. -/
structure FileSystem where
  sanitized : String → String
  readable : String → Bool

/-- State of a `HAWCLike` instance after a successful `__init__`: the fields
it assigns.  `theLikeHAWC` models the native LIFF analysis object, absent
until `set_model` constructs it. -/
structure HAWCState where
  name : String
  fullsky : Bool
  maptree : String
  response : String
  instanced : Bool
  nTransits : Option ℝ
  minChannel : ℤ
  maxChannel : ℤ
  fitCommonNorm : Bool
  roiRa : Option ℝ
  commonNorm : Parameter
  theLikeHAWC : Option Unit

/-- Tests whether an embedded Python result is a raised `IOError`. -/
def isIOError : Except PyErr HAWCState → Bool
  | Except.error (PyErr.ioError _) => true
  | Except.ok _ => false

/-- `HAWCLike.__init__(name, maptree, response, n_transits, fullsky)`:
sanitizes the two paths, raises `IOError` if either sanitized path is not an
existing readable file (maptree checked first, the message interpolating the
raw argument), and otherwise finishes the field assignments — in particular
`instanced = False` and no native analysis object is constructed. -/
def HAWCLike.init (fs : FileSystem) (name maptree response : String)
    (nTransits : Option ℝ) (fullsky : Bool) : Except PyErr HAWCState :=
  let mt := fs.sanitized maptree
  let rsp := fs.sanitized response
  if fs.readable mt then
    if fs.readable rsp then
      Except.ok
        { name := name
          fullsky := fullsky
          maptree := mt
          response := rsp
          instanced := false
          nTransits := nTransits
          minChannel := 0
          maxChannel := 9
          fitCommonNorm := false
          roiRa := none
          commonNorm := { Parameter.make "CommonNorm" 1 0.5 1.5 0.01 false false with
                            isFixed := true }
          theLikeHAWC := none }
    else
      Except.error (PyErr.ioError ("Response " ++ response ++ " does not exist or is not readable"))
  else
    Except.error (PyErr.ioError ("MapTree " ++ maptree ++ " does not exist or is not readable"))

/-! ## Numeric helper bounds -/

lemma pi_cubed_gt : (31 : ℝ) < π ^ 3 := by
  have h := Real.pi_gt_d6
  have h2 : (3.141592 : ℝ) ^ 2 < π ^ 2 := by nlinarith
  nlinarith [Real.pi_pos]

lemma pi_cubed_lt : π ^ 3 < 31.3 := by
  have h := Real.pi_lt_d2
  have h2 : π ^ 2 < (3.15 : ℝ) ^ 2 := by nlinarith [Real.pi_pos]
  nlinarith [Real.pi_pos]

lemma two_le_exp_one : (2 : ℝ) ≤ Real.exp 1 := by
  have h := Real.exp_one_gt_d9
  linarith

lemma exp_one_le_three : Real.exp 1 ≤ 3 := by
  have h := Real.exp_one_lt_d9
  linarith

lemma exp_41_le : Real.exp 41 ≤ 3 ^ 41 := by
  have h : Real.exp (((41 : ℕ) : ℝ) * 1) = Real.exp 1 ^ (41 : ℕ) := Real.exp_nat_mul 1 41
  have h2 : Real.exp 41 = Real.exp 1 ^ (41 : ℕ) := by
    rw [← h]; norm_num
  rw [h2]
  exact pow_le_pow_left₀ (Real.exp_nonneg 1) exp_one_le_three 41

lemma exp_120_ge : (2 : ℝ) ^ 120 ≤ Real.exp 120 := by
  have h : Real.exp (((120 : ℕ) : ℝ) * 1) = Real.exp 1 ^ (120 : ℕ) := Real.exp_nat_mul 1 120
  have h2 : Real.exp 120 = Real.exp 1 ^ (120 : ℕ) := by
    rw [← h]; norm_num
  rw [h2]
  exact pow_le_pow_left₀ (by norm_num) two_le_exp_one 120

/-- Any density expression with coefficient at most `530` and exponent at most
`-120` is at or below the `1e-30` output floor. -/
lemma floor_bound {K x : ℝ} (hK : K ≤ 530) (hx : 120 ≤ x) :
    K * Real.exp (-x) ≤ 1e-30 := by
  have h1 : Real.exp (-x) ≤ Real.exp (-(120 : ℝ)) := Real.exp_le_exp.2 (by linarith)
  have h2 : Real.exp (-(120 : ℝ)) = (Real.exp 120)⁻¹ := Real.exp_neg 120
  have h3 : (Real.exp 120)⁻¹ ≤ ((2 : ℝ) ^ 120)⁻¹ :=
    inv_anti₀ (by positivity) exp_120_ge
  have h4 : Real.exp (-x) ≤ ((2 : ℝ) ^ 120)⁻¹ := by rw [h2] at h1; linarith
  have h5 : K * Real.exp (-x) ≤ 530 * ((2 : ℝ) ^ 120)⁻¹ :=
    mul_le_mul hK h4 (Real.exp_pos _).le (by norm_num)
  have h6 : (530 : ℝ) * ((2 : ℝ) ^ 120)⁻¹ ≤ 1e-30 := by norm_num
  linarith

/-- Any density expression with coefficient at least `5` and exponent at least
`-41` strictly exceeds the `1e-30` output floor. -/
lemma above_bound {K x : ℝ} (hK : 5 ≤ K) (hx : x ≤ 41) :
    1e-30 < K * Real.exp (-x) := by
  have e2 : ((3 : ℝ) ^ 41)⁻¹ ≤ (Real.exp 41)⁻¹ :=
    inv_anti₀ (Real.exp_pos 41) exp_41_le
  have e3 : (Real.exp 41)⁻¹ = Real.exp (-(41 : ℝ)) := (Real.exp_neg 41).symm
  have e4 : Real.exp (-(41 : ℝ)) ≤ Real.exp (-x) := Real.exp_le_exp.2 (by linarith)
  have e5 : ((3 : ℝ) ^ 41)⁻¹ ≤ Real.exp (-x) := by rw [e3] at e2; linarith
  have e6 : 5 * ((3 : ℝ) ^ 41)⁻¹ ≤ K * Real.exp (-x) :=
    mul_le_mul hK e5 (by positivity) (by linarith)
  have e7 : (1e-30 : ℝ) < 5 * ((3 : ℝ) ^ 41)⁻¹ := by norm_num
  linarith

/-- The coefficient of the circular density, rewritten over `π ^ 3`. -/
lemma coef_eq (σ : ℝ) (hσ : σ ≠ 0) :
    (180 / π) ^ 2 * 1 / (2 * π * σ ^ 2) = 16200 / (π ^ 3 * σ ^ 2) := by
  have hπ := Real.pi_ne_zero
  field_simp
  ring

lemma coef_ten_ge : (5 : ℝ) ≤ (180 / π) ^ 2 * 1 / (2 * π * (10 : ℝ) ^ 2) := by
  rw [coef_eq 10 (by norm_num), le_div_iff₀ (by positivity)]
  nlinarith [pi_cubed_lt]

lemma coef_ten_le : (180 / π) ^ 2 * 1 / (2 * π * (10 : ℝ) ^ 2) ≤ 530 := by
  rw [coef_eq 10 (by norm_num), div_le_iff₀ (by positivity)]
  nlinarith [pi_cubed_gt]

lemma coef_one_le : (180 / π) ^ 2 * 1 / (2 * π * (1 : ℝ) ^ 2) ≤ 530 := by
  rw [coef_eq 1 (by norm_num), div_le_iff₀ (by positivity)]
  nlinarith [pi_cubed_gt]

lemma coef_pos (σ : ℝ) (hσ : σ ≠ 0) : 0 < (180 / π) ^ 2 * 1 / (2 * π * σ ^ 2) := by
  have h1 : (0 : ℝ) < (180 / π) ^ 2 := by positivity
  have h2 : (0 : ℝ) < σ ^ 2 := by positivity
  have h3 : (0 : ℝ) < 2 * π * σ ^ 2 := by positivity
  positivity

/-- The exponent of the circular density, rewritten to the spec's shape. -/
lemma exp_arg_rewrite (d σ : ℝ) :
    Real.exp (-0.5 * d ^ 2 / σ ^ 2) = Real.exp (-(d ^ 2) / (2 * σ ^ 2)) := by
  congr 1
  ring

/-! ## Evaluation helpers for the spec-modelled angular separation -/

lemma angsepGC_equator (ra : ℝ) :
    angsepGC ra 0 0 0 = (180 / π) * Real.arccos (Real.cos (ra * (π / 180))) := by
  simp [angsepGC, deg2rad]

lemma angsep_val_90 : angsepGC 90 0 0 0 = 90 := by
  have hπ := Real.pi_ne_zero
  rw [angsepGC_equator, show (90 : ℝ) * (π / 180) = π / 2 by ring,
    Real.cos_pi_div_two, Real.arccos_zero]
  field_simp
  ring

lemma angsep_val_180 : angsepGC 180 0 0 0 = 180 := by
  have hπ := Real.pi_ne_zero
  rw [angsepGC_equator, show (180 : ℝ) * (π / 180) = π by ring,
    Real.cos_pi, Real.arccos_neg_one]
  field_simp

lemma angsep_val_270 : angsepGC 270 0 0 0 = 90 := by
  have hπ := Real.pi_ne_zero
  rw [angsepGC_equator, show (270 : ℝ) * (π / 180) = 2 * π - π / 2 by ring,
    Real.cos_two_pi_sub, Real.cos_pi_div_two, Real.arccos_zero]
  field_simp
  ring

lemma angsep_val_300 : angsepGC 300 0 0 0 = 60 := by
  have hπ := Real.pi_ne_zero
  rw [angsepGC_equator, show (300 : ℝ) * (π / 180) = 2 * π - π / 3 by ring,
    Real.cos_two_pi_sub,
    Real.arccos_cos (by positivity) (by linarith [Real.pi_pos]), ]
  field_simp
  ring

/-! ## Projection lemmas for the parameter-mutated states -/

lemma gaussWith_ra0 (ra0 dec0 : ℝ) (σf : ℝ → ℝ) :
    (Gaussian.withValues ra0 dec0 σf).pRA0.value = ra0 := rfl

lemma gaussWith_dec0 (ra0 dec0 : ℝ) (σf : ℝ → ℝ) :
    (Gaussian.withValues ra0 dec0 σf).pDec0.value = dec0 := rfl

lemma gaussWith_sigma (ra0 dec0 : ℝ) (σf : ℝ → ℝ) (E : ℝ) :
    (Gaussian.withValues ra0 dec0 σf).pSigma.valueAt E = σf E := rfl

lemma mvgWith_ra0 (ra0 dec0 : ℝ) (σf εf af : ℝ → ℝ) :
    (MultiVariateGaussian.withValues ra0 dec0 σf εf af).pRA0.value = ra0 := rfl

lemma mvgWith_dec0 (ra0 dec0 : ℝ) (σf εf af : ℝ → ℝ) :
    (MultiVariateGaussian.withValues ra0 dec0 σf εf af).pDec0.value = dec0 := rfl

lemma mvgWith_sigma (ra0 dec0 : ℝ) (σf εf af : ℝ → ℝ) (E : ℝ) :
    (MultiVariateGaussian.withValues ra0 dec0 σf εf af).pSigma.valueAt E = σf E := rfl

lemma mvgWith_ecc (ra0 dec0 : ℝ) (σf εf af : ℝ → ℝ) (E : ℝ) :
    (MultiVariateGaussian.withValues ra0 dec0 σf εf af).pEccentricity.valueAt E = εf E := rfl

lemma mvgWith_angle (ra0 dec0 : ℝ) (σf εf af : ℝ → ℝ) (E : ℝ) :
    (MultiVariateGaussian.withValues ra0 dec0 σf εf af).pAngle.valueAt E = af E := rfl

/-! ## The elliptical density in closed form -/

/-- The rotated covariance built in `MultiVariateGaussian.__call__`, with its
entries multiplied out. -/
lemma cov_entries (σ1 σ2 c sn : ℝ) :
    (Mat2.mk c (-sn) sn c).mul ((Mat2.mk σ1 0 0 σ2).mul (Mat2.mk c (-sn) sn c).transpose) =
      Mat2.mk (σ1 * c ^ 2 + σ2 * sn ^ 2) (σ1 * c * sn - σ2 * sn * c)
        (σ1 * sn * c - σ2 * c * sn) (σ1 * sn ^ 2 + σ2 * c ^ 2) := by
  simp only [Mat2.mul, Mat2.transpose, Mat2.mk.injEq]
  refine ⟨by ring, by ring, by ring, by ring⟩

/-- The bivariate normal density at a covariance of the form `R·Λ·Rᵀ` (with
`R` a rotation and `Λ = diag(σ1, σ2)` positive), in principal-axes closed
form. -/
lemma mvnPdf_rot (x y mx my σ1 σ2 c sn : ℝ) (h1 : 0 < σ1) (h2 : 0 < σ2)
    (hcs : c ^ 2 + sn ^ 2 = 1) :
    mvnPdf x y mx my
        ((Mat2.mk c (-sn) sn c).mul
          ((Mat2.mk σ1 0 0 σ2).mul (Mat2.mk c (-sn) sn c).transpose)) =
      1 / (2 * π * (Real.sqrt σ1 * Real.sqrt σ2)) *
        Real.exp (-(((x - mx) * c + (y - my) * sn) ^ 2 / σ1 +
                    ((x - mx) * sn - (y - my) * c) ^ 2 / σ2) / 2) := by
  rw [cov_entries]
  have hdet : (Mat2.mk (σ1 * c ^ 2 + σ2 * sn ^ 2) (σ1 * c * sn - σ2 * sn * c)
      (σ1 * sn * c - σ2 * c * sn) (σ1 * sn ^ 2 + σ2 * c ^ 2)).det = σ1 * σ2 := by
    simp only [Mat2.det]
    linear_combination (σ1 * σ2 * (c ^ 2 + sn ^ 2 + 1)) * hcs
  simp only [mvnPdf, Mat2.inv]
  rw [hdet, Real.sqrt_mul h1.le]
  congr 1
  congr 1
  have hσ12 : σ1 * σ2 ≠ 0 := (mul_pos h1 h2).ne'
  field_simp
  ring

/-- The elliptical density of `MultiVariateGaussian.__call__` in closed form:
for `sigma > 0` and `eccentricity² < 1` it is the bivariate normal density
with mean `(RA0, Dec0)` and covariance `R·Λ·Rᵀ` — equivalently, the product
of the `(180/π)²` Jacobian, the normalization
`1/(2π·σ²·√(1−ε²))` and the Gaussian of the quadratic form taken along the
rotated principal axes. -/
lemma mvg_density_closed (s : MultiVariateGaussian) (RA Dec E : ℝ)
    (hσ : 0 < s.pSigma.valueAt E)
    (hε : (s.pEccentricity.valueAt E) ^ 2 < 1) :
    MultiVariateGaussian.density s RA Dec E =
      (180 / π) ^ 2 *
        (1 / (2 * π * ((s.pSigma.valueAt E) ^ 2 *
            Real.sqrt (1 - (s.pEccentricity.valueAt E) ^ 2)))) *
        Real.exp (-(((RA - s.pRA0.value) * Real.cos (s.pAngle.valueAt E * (π / 180)) +
              (Dec - s.pDec0.value) * Real.sin (s.pAngle.valueAt E * (π / 180))) ^ 2 /
                (s.pSigma.valueAt E) ^ 2 +
              ((RA - s.pRA0.value) * Real.sin (s.pAngle.valueAt E * (π / 180)) -
              (Dec - s.pDec0.value) * Real.cos (s.pAngle.valueAt E * (π / 180))) ^ 2 /
                ((s.pSigma.valueAt E) ^ 2 * (1 - (s.pEccentricity.valueAt E) ^ 2))) / 2) := by
  have h1 : 0 < (s.pSigma.valueAt E) ^ 2 := by positivity
  have h1e : 0 < 1 - (s.pEccentricity.valueAt E) ^ 2 := by linarith
  have h2 : 0 < (s.pSigma.valueAt E) ^ 2 * (1 - (s.pEccentricity.valueAt E) ^ 2) :=
    mul_pos h1 h1e
  simp only [MultiVariateGaussian.density]
  rw [mvnPdf_rot RA Dec s.pRA0.value s.pDec0.value _ _ _ _ h1 h2
    (Real.cos_sq_add_sin_sq _)]
  rw [Real.sqrt_mul (sq_nonneg _) (1 - (s.pEccentricity.valueAt E) ^ 2),
    Real.sqrt_sq hσ.le]
  ring

/-- When the eccentricity and angle both resolve to `0`, the elliptical
density reduces to a circular Gaussian in the flat Euclidean distance from
the center. -/
lemma mvg_density_circular (s : MultiVariateGaussian) (RA Dec E : ℝ)
    (hσ : 0 < s.pSigma.valueAt E) (hε : s.pEccentricity.valueAt E = 0)
    (ha : s.pAngle.valueAt E = 0) :
    MultiVariateGaussian.density s RA Dec E =
      (180 / π) ^ 2 * 1 / (2 * π * (s.pSigma.valueAt E) ^ 2) *
        Real.exp (-0.5 * ((RA - s.pRA0.value) ^ 2 + (Dec - s.pDec0.value) ^ 2) /
          (s.pSigma.valueAt E) ^ 2) := by
  rw [mvg_density_closed s RA Dec E hσ (by rw [hε]; norm_num), hε, ha]
  have harg : -(((RA - s.pRA0.value) * Real.cos (0 * (π / 180)) +
        (Dec - s.pDec0.value) * Real.sin (0 * (π / 180))) ^ 2 / (s.pSigma.valueAt E) ^ 2 +
      ((RA - s.pRA0.value) * Real.sin (0 * (π / 180)) -
        (Dec - s.pDec0.value) * Real.cos (0 * (π / 180))) ^ 2 /
          ((s.pSigma.valueAt E) ^ 2 * (1 - (0 : ℝ) ^ 2))) / 2 =
      -0.5 * ((RA - s.pRA0.value) ^ 2 + (Dec - s.pDec0.value) ^ 2) /
        (s.pSigma.valueAt E) ^ 2 := by
    rw [zero_mul, Real.cos_zero, Real.sin_zero]
    ring
  rw [harg]
  rw [show (1 : ℝ) - (0 : ℝ) ^ 2 = 1 by norm_num, Real.sqrt_one]
  ring

/-! ## Claim theorems -/

/-- Claim C1: every call of `Gaussian.__call__` or
`MultiVariateGaussian.__call__` returns a (real, hence finite) density that is
at least `1e-30`, in particular never zero or negative — for any parameter
state, so in particular for parameter values inside the declared bounds. -/
theorem c1_output_floor (f : ℝ → ℝ → ℝ → ℝ → ℝ) (gs : Gaussian)
    (ms : MultiVariateGaussian) (RA Dec energy : ℝ) :
    1e-30 ≤ (Gaussian.call f gs RA Dec energy).1 ∧
      0 < (Gaussian.call f gs RA Dec energy).1 ∧
      1e-30 ≤ (MultiVariateGaussian.call ms RA Dec energy).1 ∧
      0 < (MultiVariateGaussian.call ms RA Dec energy).1 := by
  refine ⟨le_max_right _ _, lt_of_lt_of_le (by norm_num) (le_max_right _ _),
    le_max_right _ _, lt_of_lt_of_le (by norm_num) (le_max_right _ _)⟩

/-- Claim C2: before the `1e-30` floor is applied, `Gaussian.__call__`
computes exactly `(180/π)² · 1/(2π·sigma²) · exp(−d²/(2·sigma²))`, where
`sigma` is the `sigma` spatial parameter resolved at the given energy and `d`
is the value of the external angular-separation function at
`(RA, Dec, RA0, Dec0)`; the returned value is that density clamped at
`1e-30`. -/
theorem c2_circular_density_formula (f : ℝ → ℝ → ℝ → ℝ → ℝ) (gs : Gaussian)
    (RA Dec energy : ℝ) :
    Gaussian.density f gs RA Dec energy =
      specCircularDensity (gs.pSigma.valueAt energy)
        (f RA Dec gs.pRA0.value gs.pDec0.value) ∧
    (Gaussian.call f gs RA Dec energy).1 =
      max (Gaussian.density f gs RA Dec energy) 1e-30 := by
  constructor
  · simp only [Gaussian.density, specCircularDensity, exp_arg_rewrite]
    ring
  · rfl

/-- `ncalls` after folding `Gaussian.__call__` over a list of inputs. -/
lemma gauss_runCalls_ncalls (f : ℝ → ℝ → ℝ → ℝ → ℝ) (xs : List (ℝ × ℝ × ℝ)) :
    ∀ s : Gaussian, (Gaussian.runCalls f s xs).ncalls = s.ncalls + xs.length := by
  induction xs with
  | nil => intro s; simp [Gaussian.runCalls]
  | cons x t ih =>
      intro s
      have h := ih (Gaussian.call f s x.1 x.2.1 x.2.2).2
      simp only [Gaussian.runCalls, List.foldl_cons] at h ⊢
      rw [h]
      simp only [Gaussian.call, List.length_cons]
      omega

/-- `ncalls` after folding `MultiVariateGaussian.__call__` over a list of
inputs. -/
lemma mvg_runCalls_ncalls (xs : List (ℝ × ℝ × ℝ)) :
    ∀ s : MultiVariateGaussian,
      (MultiVariateGaussian.runCalls s xs).ncalls = s.ncalls + xs.length := by
  induction xs with
  | nil => intro s; simp [MultiVariateGaussian.runCalls]
  | cons x t ih =>
      intro s
      have h := ih (MultiVariateGaussian.call s x.1 x.2.1 x.2.2).2
      simp only [MultiVariateGaussian.runCalls, List.foldl_cons] at h ⊢
      rw [h]
      simp only [MultiVariateGaussian.call, List.length_cons]
      omega

/-- A flat (Euclidean) separation function on the `(RA, Dec)` plane, used to
instantiate theorems that hold for any angular-separation collaborator. -/
def flatSep : ℝ → ℝ → ℝ → ℝ → ℝ :=
  fun a b c d => Real.sqrt ((a - c) ^ 2 + (b - d) ^ 2)

/-- Circular model centered at the origin with `sigma = 1`. -/
def gaussUnit : Gaussian := Gaussian.withValues 0 0 (fun _ => 1)

/-- Circular model centered at the origin with `sigma = 10`. -/
def gaussTen : Gaussian := Gaussian.withValues 0 0 (fun _ => 10)

/-- Elliptical model centered at the origin with `sigma = 1`,
`eccentricity = 0`, `angle = 0`. -/
def mvgUnit : MultiVariateGaussian :=
  MultiVariateGaussian.withValues 0 0 (fun _ => 1) (fun _ => 0) (fun _ => 0)

/-- Elliptical model centered at the origin with `sigma = 10`,
`eccentricity = 0`, `angle = 0`. -/
def mvgTen : MultiVariateGaussian :=
  MultiVariateGaussian.withValues 0 0 (fun _ => 10) (fun _ => 0) (fun _ => 0)

/-- Claim C3: for `sigma > 0` and `eccentricity² < 1`,
`MultiVariateGaussian.__call__` returns (clamped at `1e-30`) the bivariate
normal density at `(RA, Dec)` with mean `(RA0, Dec0)` and covariance
`Σ = R·Λ·Rᵀ` — `Λ = diag(sigma², sigma²·(1−ecc²))`, `R` the rotation by the
resolved angle in radians — scaled by `(180/π)²`; the density is written out
in its principal-axes closed form `1/(2π·σ²√(1−ε²)) · exp(−Q/2)`. -/
theorem c3_elliptical_density_formula (s : MultiVariateGaussian) (RA Dec E : ℝ)
    (hσ : 0 < s.pSigma.valueAt E)
    (hε : (s.pEccentricity.valueAt E) ^ 2 < 1) :
    (MultiVariateGaussian.call s RA Dec E).1 =
      max ((180 / π) ^ 2 *
        (1 / (2 * π * ((s.pSigma.valueAt E) ^ 2 *
            Real.sqrt (1 - (s.pEccentricity.valueAt E) ^ 2)))) *
        Real.exp (-(((RA - s.pRA0.value) * Real.cos (s.pAngle.valueAt E * (π / 180)) +
              (Dec - s.pDec0.value) * Real.sin (s.pAngle.valueAt E * (π / 180))) ^ 2 /
                (s.pSigma.valueAt E) ^ 2 +
              ((RA - s.pRA0.value) * Real.sin (s.pAngle.valueAt E * (π / 180)) -
              (Dec - s.pDec0.value) * Real.cos (s.pAngle.valueAt E * (π / 180))) ^ 2 /
                ((s.pSigma.valueAt E) ^ 2 * (1 - (s.pEccentricity.valueAt E) ^ 2))) / 2))
        1e-30 := by
  show max (MultiVariateGaussian.density s RA Dec E) 1e-30 = _
  rw [mvg_density_closed s RA Dec E hσ hε]

/-- Witness for C3 at the concrete state `mvgUnit` and input `(1, 2, 5)`. -/
theorem c3_elliptical_density_formula_witness :
    (0 < mvgUnit.pSigma.valueAt 5) ∧ ((mvgUnit.pEccentricity.valueAt 5) ^ 2 < 1) ∧
    (MultiVariateGaussian.call mvgUnit 1 2 5).1 =
      max ((180 / π) ^ 2 *
        (1 / (2 * π * ((mvgUnit.pSigma.valueAt 5) ^ 2 *
            Real.sqrt (1 - (mvgUnit.pEccentricity.valueAt 5) ^ 2)))) *
        Real.exp (-(((1 - mvgUnit.pRA0.value) * Real.cos (mvgUnit.pAngle.valueAt 5 * (π / 180)) +
              (2 - mvgUnit.pDec0.value) * Real.sin (mvgUnit.pAngle.valueAt 5 * (π / 180))) ^ 2 /
                (mvgUnit.pSigma.valueAt 5) ^ 2 +
              ((1 - mvgUnit.pRA0.value) * Real.sin (mvgUnit.pAngle.valueAt 5 * (π / 180)) -
              (2 - mvgUnit.pDec0.value) * Real.cos (mvgUnit.pAngle.valueAt 5 * (π / 180))) ^ 2 /
                ((mvgUnit.pSigma.valueAt 5) ^ 2 * (1 - (mvgUnit.pEccentricity.valueAt 5) ^ 2))) / 2))
        1e-30 := by
  have h1 : (0 : ℝ) < mvgUnit.pSigma.valueAt 5 := by
    rw [show mvgUnit.pSigma.valueAt 5 = (1 : ℝ) from rfl]; norm_num
  have h2 : (mvgUnit.pEccentricity.valueAt 5) ^ 2 < 1 := by
    rw [show mvgUnit.pEccentricity.valueAt 5 = (0 : ℝ) from rfl]; norm_num
  exact ⟨h1, h2, c3_elliptical_density_formula mvgUnit 1 2 5 h1 h2⟩

/-- Claim C4 counterexample: with eccentricity and angle resolving to `0` and
common `RA0 = Dec0 = 0`, `sigma = 10`, the two models disagree at
`(RA, Dec) = (270, 0)`: the great-circle separation from the origin is `90`
degrees (the circular model returns a density well above the floor) while the
elliptical model uses the flat offset `270` degrees (its density falls below
the floor and is clamped to `1e-30`). -/
theorem c4_counterexample :
    mvgTen.pEccentricity.valueAt 1 = 0 ∧ mvgTen.pAngle.valueAt 1 = 0 ∧
    mvgTen.pRA0.value = gaussTen.pRA0.value ∧
    mvgTen.pDec0.value = gaussTen.pDec0.value ∧
    mvgTen.pSigma.valueAt 1 = gaussTen.pSigma.valueAt 1 ∧
    (MultiVariateGaussian.call mvgTen 270 0 1).1 ≠
      (Gaussian.call angsepGC gaussTen 270 0 1).1 := by
  refine ⟨rfl, rfl, rfl, rfl, rfl, ?_⟩
  have hgd : Gaussian.density angsepGC gaussTen 270 0 1 =
      (180 / π) ^ 2 * 1 / (2 * π * (10 : ℝ) ^ 2) * Real.exp (-(40.5 : ℝ)) := by
    show (180 / π) ^ 2 * 1 / (2 * π * (10 : ℝ) ^ 2) *
        Real.exp (-0.5 * (angsepGC 270 0 0 0) ^ 2 / (10 : ℝ) ^ 2) = _
    rw [angsep_val_270]
    norm_num
  have habove : (1e-30 : ℝ) < Gaussian.density angsepGC gaussTen 270 0 1 := by
    rw [hgd]
    exact above_bound coef_ten_ge (by norm_num)
  have hmd : MultiVariateGaussian.density mvgTen 270 0 1 =
      (180 / π) ^ 2 * 1 / (2 * π * (10 : ℝ) ^ 2) * Real.exp (-(364.5 : ℝ)) := by
    rw [mvg_density_circular mvgTen 270 0 1
      (by rw [show mvgTen.pSigma.valueAt 1 = (10 : ℝ) from rfl]; norm_num) rfl rfl]
    rw [show mvgTen.pSigma.valueAt 1 = (10 : ℝ) from rfl,
      show mvgTen.pRA0.value = (0 : ℝ) from rfl,
      show mvgTen.pDec0.value = (0 : ℝ) from rfl]
    norm_num
  have hmfloor : MultiVariateGaussian.density mvgTen 270 0 1 ≤ 1e-30 := by
    rw [hmd]
    exact floor_bound coef_ten_le (by norm_num)
  have hgc : (Gaussian.call angsepGC gaussTen 270 0 1).1 =
      Gaussian.density angsepGC gaussTen 270 0 1 := max_eq_left habove.le
  have hmc : (MultiVariateGaussian.call mvgTen 270 0 1).1 = 1e-30 :=
    max_eq_right hmfloor
  rw [hgc, hmc]
  exact ne_of_lt habove

/-- Claim C4 amended: with eccentricity and angle resolving to `0` and common
`RA0`, `Dec0`, `sigma > 0`, the elliptical model returns the same density as
the circular model at every input where the external angular-separation value
agrees with the flat Euclidean offset in the `(RA, Dec)` plane (the elliptical
model measures distance in the flat tangent plane, the circular model on the
great circle, so agreement holds exactly on such inputs). -/
theorem c4_amended_flat_agreement (f : ℝ → ℝ → ℝ → ℝ → ℝ) (gs : Gaussian)
    (ms : MultiVariateGaussian) (RA Dec E : ℝ)
    (hra : ms.pRA0.value = gs.pRA0.value) (hdec : ms.pDec0.value = gs.pDec0.value)
    (hσeq : ms.pSigma.valueAt E = gs.pSigma.valueAt E)
    (hσ : 0 < gs.pSigma.valueAt E)
    (hε : ms.pEccentricity.valueAt E = 0) (ha : ms.pAngle.valueAt E = 0)
    (hflat : (f RA Dec gs.pRA0.value gs.pDec0.value) ^ 2 =
      (RA - gs.pRA0.value) ^ 2 + (Dec - gs.pDec0.value) ^ 2) :
    (MultiVariateGaussian.call ms RA Dec E).1 = (Gaussian.call f gs RA Dec E).1 := by
  have hσm : 0 < ms.pSigma.valueAt E := by rw [hσeq]; exact hσ
  have h1 : MultiVariateGaussian.density ms RA Dec E = Gaussian.density f gs RA Dec E := by
    rw [mvg_density_circular ms RA Dec E hσm hε ha, hra, hdec, hσeq]
    show _ = (180 / π) ^ 2 * 1 / (2 * π * (gs.pSigma.valueAt E) ^ 2) *
      Real.exp (-0.5 * (f RA Dec gs.pRA0.value gs.pDec0.value) ^ 2 /
        (gs.pSigma.valueAt E) ^ 2)
    rw [hflat]
  show max (MultiVariateGaussian.density ms RA Dec E) 1e-30 =
    max (Gaussian.density f gs RA Dec E) 1e-30
  rw [h1]

/-- Witness for the amended C4: `flatSep` agrees with the flat offset
everywhere, so the two unit models agree at `(3, 4, 1)`. -/
theorem c4_amended_flat_agreement_witness :
    mvgUnit.pRA0.value = gaussUnit.pRA0.value ∧
    mvgUnit.pDec0.value = gaussUnit.pDec0.value ∧
    mvgUnit.pSigma.valueAt 1 = gaussUnit.pSigma.valueAt 1 ∧
    (0 < gaussUnit.pSigma.valueAt 1) ∧
    mvgUnit.pEccentricity.valueAt 1 = 0 ∧ mvgUnit.pAngle.valueAt 1 = 0 ∧
    (flatSep 3 4 gaussUnit.pRA0.value gaussUnit.pDec0.value) ^ 2 =
      (3 - gaussUnit.pRA0.value) ^ 2 + (4 - gaussUnit.pDec0.value) ^ 2 ∧
    (MultiVariateGaussian.call mvgUnit 3 4 1).1 = (Gaussian.call flatSep gaussUnit 3 4 1).1 := by
  have hσ : (0 : ℝ) < gaussUnit.pSigma.valueAt 1 := by
    rw [show gaussUnit.pSigma.valueAt 1 = (1 : ℝ) from rfl]; norm_num
  have hflat : (flatSep 3 4 gaussUnit.pRA0.value gaussUnit.pDec0.value) ^ 2 =
      (3 - gaussUnit.pRA0.value) ^ 2 + (4 - gaussUnit.pDec0.value) ^ 2 := by
    unfold flatSep
    rw [Real.sq_sqrt (by positivity)]
  exact ⟨rfl, rfl, rfl, hσ, rfl, rfl, hflat,
    c4_amended_flat_agreement flatSep gaussUnit mvgUnit 3 4 1 rfl rfl rfl hσ rfl rfl hflat⟩

/-- Claim C5 counterexample: strict decay in angular separation fails for
both models.  Circular (`sigma = 1`, center the origin): the points
`(90, 0)` and `(180, 0)` have separations `90 < 180`, yet both densities fall
below the floor and the returned values are equal.  Elliptical (`sigma = 10`,
eccentricity and angle `0`): the point `(300, 0)` has great-circle separation
`60`, smaller than the separation `90` of `(90, 0)`, yet its returned density
is strictly smaller — the elliptical density is not a function of angular
separation (it uses the flat offset, here `300` versus `90`). -/
theorem c5_counterexample :
    (angsepGC 90 0 gaussUnit.pRA0.value gaussUnit.pDec0.value <
       angsepGC 180 0 gaussUnit.pRA0.value gaussUnit.pDec0.value ∧
     (Gaussian.call angsepGC gaussUnit 90 0 1).1 =
       (Gaussian.call angsepGC gaussUnit 180 0 1).1) ∧
    (angsepGC 300 0 mvgTen.pRA0.value mvgTen.pDec0.value <
       angsepGC 90 0 mvgTen.pRA0.value mvgTen.pDec0.value ∧
     (MultiVariateGaussian.call mvgTen 300 0 1).1 <
       (MultiVariateGaussian.call mvgTen 90 0 1).1) := by
  have e0 : gaussUnit.pRA0.value = (0 : ℝ) := rfl
  have e1 : gaussUnit.pDec0.value = (0 : ℝ) := rfl
  have e2 : mvgTen.pRA0.value = (0 : ℝ) := rfl
  have e3 : mvgTen.pDec0.value = (0 : ℝ) := rfl
  constructor
  · constructor
    · rw [e0, e1, angsep_val_90, angsep_val_180]; norm_num
    · have g90 : Gaussian.density angsepGC gaussUnit 90 0 1 =
          (180 / π) ^ 2 * 1 / (2 * π * (1 : ℝ) ^ 2) * Real.exp (-(4050 : ℝ)) := by
        show (180 / π) ^ 2 * 1 / (2 * π * (1 : ℝ) ^ 2) *
            Real.exp (-0.5 * (angsepGC 90 0 0 0) ^ 2 / (1 : ℝ) ^ 2) = _
        rw [angsep_val_90]
        norm_num
      have g180 : Gaussian.density angsepGC gaussUnit 180 0 1 =
          (180 / π) ^ 2 * 1 / (2 * π * (1 : ℝ) ^ 2) * Real.exp (-(16200 : ℝ)) := by
        show (180 / π) ^ 2 * 1 / (2 * π * (1 : ℝ) ^ 2) *
            Real.exp (-0.5 * (angsepGC 180 0 0 0) ^ 2 / (1 : ℝ) ^ 2) = _
        rw [angsep_val_180]
        norm_num
      have f90 : Gaussian.density angsepGC gaussUnit 90 0 1 ≤ 1e-30 := by
        rw [g90]; exact floor_bound coef_one_le (by norm_num)
      have f180 : Gaussian.density angsepGC gaussUnit 180 0 1 ≤ 1e-30 := by
        rw [g180]; exact floor_bound coef_one_le (by norm_num)
      have c90 : (Gaussian.call angsepGC gaussUnit 90 0 1).1 = 1e-30 := max_eq_right f90
      have c180 : (Gaussian.call angsepGC gaussUnit 180 0 1).1 = 1e-30 := max_eq_right f180
      rw [c90, c180]
  · constructor
    · rw [e2, e3, angsep_val_300, angsep_val_90]; norm_num
    · have m300 : MultiVariateGaussian.density mvgTen 300 0 1 =
          (180 / π) ^ 2 * 1 / (2 * π * (10 : ℝ) ^ 2) * Real.exp (-(450 : ℝ)) := by
        rw [mvg_density_circular mvgTen 300 0 1
          (by rw [show mvgTen.pSigma.valueAt 1 = (10 : ℝ) from rfl]; norm_num) rfl rfl]
        rw [show mvgTen.pSigma.valueAt 1 = (10 : ℝ) from rfl, e2, e3]
        norm_num
      have m90 : MultiVariateGaussian.density mvgTen 90 0 1 =
          (180 / π) ^ 2 * 1 / (2 * π * (10 : ℝ) ^ 2) * Real.exp (-(40.5 : ℝ)) := by
        rw [mvg_density_circular mvgTen 90 0 1
          (by rw [show mvgTen.pSigma.valueAt 1 = (10 : ℝ) from rfl]; norm_num) rfl rfl]
        rw [show mvgTen.pSigma.valueAt 1 = (10 : ℝ) from rfl, e2, e3]
        norm_num
      have f300 : MultiVariateGaussian.density mvgTen 300 0 1 ≤ 1e-30 := by
        rw [m300]; exact floor_bound coef_ten_le (by norm_num)
      have a90 : (1e-30 : ℝ) < MultiVariateGaussian.density mvgTen 90 0 1 := by
        rw [m90]; exact above_bound coef_ten_ge (by norm_num)
      have c300 : (MultiVariateGaussian.call mvgTen 300 0 1).1 = 1e-30 := max_eq_right f300
      have c90 : (MultiVariateGaussian.call mvgTen 90 0 1).1 =
          MultiVariateGaussian.density mvgTen 90 0 1 := max_eq_left a90.le
      rw [c300, c90]
      exact a90

/-- Claim C5 amended: for the circular Gaussian with fixed `sigma > 0`, the
returned density is non-increasing in the angular separation from the center,
and strictly decreasing whenever the unclamped density at the smaller
separation exceeds the `1e-30` floor (below the floor both returns are clamped
to `1e-30`; the elliptical density is not a function of angular separation,
see the counterexample). -/
theorem c5_amended_monotone (f : ℝ → ℝ → ℝ → ℝ → ℝ) (gs : Gaussian)
    (RA1 Dec1 RA2 Dec2 E : ℝ) (hσ : 0 < gs.pSigma.valueAt E)
    (hd1 : 0 ≤ f RA1 Dec1 gs.pRA0.value gs.pDec0.value)
    (h12 : f RA1 Dec1 gs.pRA0.value gs.pDec0.value <
      f RA2 Dec2 gs.pRA0.value gs.pDec0.value) :
    (Gaussian.call f gs RA2 Dec2 E).1 ≤ (Gaussian.call f gs RA1 Dec1 E).1 ∧
    (1e-30 < Gaussian.density f gs RA1 Dec1 E →
      (Gaussian.call f gs RA2 Dec2 E).1 < (Gaussian.call f gs RA1 Dec1 E).1) := by
  have hσ2 : 0 < (gs.pSigma.valueAt E) ^ 2 := by positivity
  have hsq : (f RA1 Dec1 gs.pRA0.value gs.pDec0.value) ^ 2 <
      (f RA2 Dec2 gs.pRA0.value gs.pDec0.value) ^ 2 := by nlinarith
  have hexp : Real.exp (-0.5 * (f RA2 Dec2 gs.pRA0.value gs.pDec0.value) ^ 2 /
        (gs.pSigma.valueAt E) ^ 2) <
      Real.exp (-0.5 * (f RA1 Dec1 gs.pRA0.value gs.pDec0.value) ^ 2 /
        (gs.pSigma.valueAt E) ^ 2) := by
    apply Real.exp_lt_exp.2
    rw [div_lt_div_iff₀ hσ2 hσ2]
    nlinarith
  have hC : 0 < (180 / π) ^ 2 * 1 / (2 * π * (gs.pSigma.valueAt E) ^ 2) :=
    coef_pos _ hσ.ne'
  have hdens : Gaussian.density f gs RA2 Dec2 E < Gaussian.density f gs RA1 Dec1 E := by
    show (180 / π) ^ 2 * 1 / (2 * π * (gs.pSigma.valueAt E) ^ 2) *
        Real.exp (-0.5 * (f RA2 Dec2 gs.pRA0.value gs.pDec0.value) ^ 2 /
          (gs.pSigma.valueAt E) ^ 2) <
      (180 / π) ^ 2 * 1 / (2 * π * (gs.pSigma.valueAt E) ^ 2) *
        Real.exp (-0.5 * (f RA1 Dec1 gs.pRA0.value gs.pDec0.value) ^ 2 /
          (gs.pSigma.valueAt E) ^ 2)
    exact mul_lt_mul_of_pos_left hexp hC
  refine ⟨max_le_max hdens.le le_rfl, fun hfloor => ?_⟩
  have hcall : (Gaussian.call f gs RA1 Dec1 E).1 = Gaussian.density f gs RA1 Dec1 E :=
    max_eq_left hfloor.le
  rw [hcall]
  exact max_lt hdens hfloor

/-- Witness for the amended C5 at `gaussTen` with separations `90 < 180`. -/
theorem c5_amended_monotone_witness :
    (0 < gaussTen.pSigma.valueAt 1) ∧
    (0 ≤ angsepGC 90 0 gaussTen.pRA0.value gaussTen.pDec0.value) ∧
    (angsepGC 90 0 gaussTen.pRA0.value gaussTen.pDec0.value <
      angsepGC 180 0 gaussTen.pRA0.value gaussTen.pDec0.value) ∧
    (1e-30 < Gaussian.density angsepGC gaussTen 90 0 1) ∧
    (Gaussian.call angsepGC gaussTen 180 0 1).1 <
      (Gaussian.call angsepGC gaussTen 90 0 1).1 := by
  have e0 : gaussTen.pRA0.value = (0 : ℝ) := rfl
  have e1 : gaussTen.pDec0.value = (0 : ℝ) := rfl
  have h1 : (0 : ℝ) < gaussTen.pSigma.valueAt 1 := by
    rw [show gaussTen.pSigma.valueAt 1 = (10 : ℝ) from rfl]; norm_num
  have h2 : 0 ≤ angsepGC 90 0 gaussTen.pRA0.value gaussTen.pDec0.value := by
    rw [e0, e1, angsep_val_90]; norm_num
  have h3 : angsepGC 90 0 gaussTen.pRA0.value gaussTen.pDec0.value <
      angsepGC 180 0 gaussTen.pRA0.value gaussTen.pDec0.value := by
    rw [e0, e1, angsep_val_90, angsep_val_180]; norm_num
  have hd90 : Gaussian.density angsepGC gaussTen 90 0 1 =
      (180 / π) ^ 2 * 1 / (2 * π * (10 : ℝ) ^ 2) * Real.exp (-(40.5 : ℝ)) := by
    show (180 / π) ^ 2 * 1 / (2 * π * (10 : ℝ) ^ 2) *
        Real.exp (-0.5 * (angsepGC 90 0 0 0) ^ 2 / (10 : ℝ) ^ 2) = _
    rw [angsep_val_90]
    norm_num
  have h4 : (1e-30 : ℝ) < Gaussian.density angsepGC gaussTen 90 0 1 := by
    rw [hd90]; exact above_bound coef_ten_ge (by norm_num)
  exact ⟨h1, h2, h3, h4,
    (c5_amended_monotone angsepGC gaussTen 90 0 180 0 1 h1 h2 h3).2 h4⟩

/-- Claim C7: after `setup` the counter `ncalls` is `0`, every invocation of
`__call__` increments it by exactly `1`, and after `n` evaluations since
`setup` it equals `n`, for both models. -/
theorem c7_call_counter :
    Gaussian.setup.ncalls = 0 ∧ MultiVariateGaussian.setup.ncalls = 0 ∧
    (∀ (f : ℝ → ℝ → ℝ → ℝ → ℝ) (s : Gaussian) (RA Dec energy : ℝ),
      (Gaussian.call f s RA Dec energy).2.ncalls = s.ncalls + 1) ∧
    (∀ (s : MultiVariateGaussian) (RA Dec energy : ℝ),
      (MultiVariateGaussian.call s RA Dec energy).2.ncalls = s.ncalls + 1) ∧
    (∀ (f : ℝ → ℝ → ℝ → ℝ → ℝ) (xs : List (ℝ × ℝ × ℝ)),
      (Gaussian.runCalls f Gaussian.setup xs).ncalls = xs.length) ∧
    (∀ xs : List (ℝ × ℝ × ℝ),
      (MultiVariateGaussian.runCalls MultiVariateGaussian.setup xs).ncalls = xs.length) := by
  refine ⟨rfl, rfl, fun _ _ _ _ _ => rfl, fun _ _ _ _ => rfl, fun f xs => ?_, fun xs => ?_⟩
  · rw [gauss_runCalls_ncalls]
    simp [Gaussian.setup]
  · rw [mvg_runCalls_ncalls]
    simp [MultiVariateGaussian.setup]

/-- Claim C9: `__call__` changes nothing in the model state except `ncalls`:
the ordered parameter mapping (keys, order and values), each parameter object
(including the energy resolution), the name and the formula string are all
unchanged, while `ncalls` increases by one — for both models. -/
theorem c9_frame_effects (f : ℝ → ℝ → ℝ → ℝ → ℝ) (gs : Gaussian)
    (ms : MultiVariateGaussian) (RA Dec energy : ℝ) :
    ((Gaussian.call f gs RA Dec energy).2.parameters = gs.parameters ∧
     (Gaussian.call f gs RA Dec energy).2.pRA0 = gs.pRA0 ∧
     (Gaussian.call f gs RA Dec energy).2.pDec0 = gs.pDec0 ∧
     (Gaussian.call f gs RA Dec energy).2.pSigma = gs.pSigma ∧
     (Gaussian.call f gs RA Dec energy).2.functionName = gs.functionName ∧
     (Gaussian.call f gs RA Dec energy).2.formula = gs.formula ∧
     (Gaussian.call f gs RA Dec energy).2.ncalls = gs.ncalls + 1) ∧
    ((MultiVariateGaussian.call ms RA Dec energy).2.parameters = ms.parameters ∧
     (MultiVariateGaussian.call ms RA Dec energy).2.pRA0 = ms.pRA0 ∧
     (MultiVariateGaussian.call ms RA Dec energy).2.pDec0 = ms.pDec0 ∧
     (MultiVariateGaussian.call ms RA Dec energy).2.pSigma = ms.pSigma ∧
     (MultiVariateGaussian.call ms RA Dec energy).2.pEccentricity = ms.pEccentricity ∧
     (MultiVariateGaussian.call ms RA Dec energy).2.pAngle = ms.pAngle ∧
     (MultiVariateGaussian.call ms RA Dec energy).2.functionName = ms.functionName ∧
     (MultiVariateGaussian.call ms RA Dec energy).2.formula = ms.formula ∧
     (MultiVariateGaussian.call ms RA Dec energy).2.ncalls = ms.ncalls + 1) :=
  ⟨⟨rfl, rfl, rfl, rfl, rfl, rfl, rfl⟩, ⟨rfl, rfl, rfl, rfl, rfl, rfl, rfl, rfl, rfl⟩⟩

/-- Claim C8 counterexample: the `sigma` parameter declared by
`Gaussian.setup` has inclusive bounds `[0, 20]`, which admit the value `0`,
while the spec's stated range `(0, 20]` excludes `0` — so the declared bounds
do not admit exactly the spec's ranges. -/
theorem c8_counterexample :
    Gaussian.setup.pSigma.base.minVal ≤ 0 ∧
    (0 : ℝ) ≤ Gaussian.setup.pSigma.base.maxVal ∧
    (0 : ℝ) ∉ Set.Ioc (0 : ℝ) 20 := by
  refine ⟨?_, ?_, ?_⟩
  · simp [Gaussian.setup, SpatialParameter.make, Parameter.make]
  · simp [Gaussian.setup, SpatialParameter.make, Parameter.make]
  · simp

/-- Claim C8 amended: the parameters declared in `setup` carry the endpoint
values the spec states, but as inclusive `[min, max]` intervals: `Dec0` and
`angle` match the spec ranges exactly, while the declared `RA0`, `sigma` and
`eccentricity` intervals are the closures of the spec's half-open ranges —
they additionally admit `360`, `0` and `1` respectively. -/
theorem c8_amended_bounds :
    Set.Icc Gaussian.setup.pRA0.minVal Gaussian.setup.pRA0.maxVal =
      Set.Ico (0 : ℝ) 360 ∪ {360} ∧
    Set.Icc Gaussian.setup.pDec0.minVal Gaussian.setup.pDec0.maxVal =
      Set.Icc (-90 : ℝ) 90 ∧
    Set.Icc Gaussian.setup.pSigma.base.minVal Gaussian.setup.pSigma.base.maxVal =
      Set.Ioc (0 : ℝ) 20 ∪ {0} ∧
    Set.Icc MultiVariateGaussian.setup.pRA0.minVal MultiVariateGaussian.setup.pRA0.maxVal =
      Set.Ico (0 : ℝ) 360 ∪ {360} ∧
    Set.Icc MultiVariateGaussian.setup.pDec0.minVal MultiVariateGaussian.setup.pDec0.maxVal =
      Set.Icc (-90 : ℝ) 90 ∧
    Set.Icc MultiVariateGaussian.setup.pSigma.base.minVal
        MultiVariateGaussian.setup.pSigma.base.maxVal =
      Set.Ioc (0 : ℝ) 10 ∪ {0} ∧
    Set.Icc MultiVariateGaussian.setup.pEccentricity.base.minVal
        MultiVariateGaussian.setup.pEccentricity.base.maxVal =
      Set.Ico (0 : ℝ) 1 ∪ {1} ∧
    Set.Icc MultiVariateGaussian.setup.pAngle.base.minVal
        MultiVariateGaussian.setup.pAngle.base.maxVal =
      Set.Icc (0 : ℝ) 180 := by
  have hra : Set.Ico (0 : ℝ) 360 ∪ {360} = Set.Icc 0 360 :=
    Set.Ico_union_right (by norm_num)
  have hs20 : Set.Ioc (0 : ℝ) 20 ∪ {0} = Set.Icc 0 20 :=
    Set.Ioc_union_left (by norm_num)
  have hs10 : Set.Ioc (0 : ℝ) 10 ∪ {0} = Set.Icc 0 10 :=
    Set.Ioc_union_left (by norm_num)
  have hecc : Set.Ico (0 : ℝ) 1 ∪ {1} = Set.Icc 0 1 :=
    Set.Ico_union_right (by norm_num)
  refine ⟨?_, rfl, ?_, ?_, rfl, ?_, ?_, rfl⟩
  · rw [hra]; rfl
  · rw [hs20]; rfl
  · rw [hra]; rfl
  · rw [hs10]; rfl
  · rw [hecc]; rfl

/-- Claim C10: `HAWCLike.__init__` raises `IOError` exactly when the sanitized
maptree path or the sanitized response path is not an existing readable file
(in which case no state is produced, so the `instanced` flag is never set);
on success the `instanced` flag is `False` and no native analysis object has
been constructed. -/
theorem c10_init_io_error (fs : FileSystem) (name maptree response : String)
    (nT : Option ℝ) (fullsky : Bool) :
    isIOError (HAWCLike.init fs name maptree response nT fullsky) =
      (!(fs.readable (fs.sanitized maptree)) || !(fs.readable (fs.sanitized response))) ∧
    (HAWCLike.init fs name maptree response nT fullsky).toOption.all
      (fun st => (!st.instanced) && st.theLikeHAWC.isNone) = true := by
  by_cases h1 : fs.readable (fs.sanitized maptree) <;>
    by_cases h2 : fs.readable (fs.sanitized response) <;>
      simp [HAWCLike.init, isIOError, Except.toOption, Option.all, h1, h2]

end ThreeML

end
